import Mathlib

/-!
A shallow embedding of the hardened physics-based authentication engine
(src/physics_auth.c together with src/physics_auth.h).  C float values are
modelled as rationals so every definition stays executable; the libm
routines sinf and cosf are modelled as an abstract pair of functions, since
their values are irrelevant to the structural properties proved here.  All
other arithmetic follows the source line by line.
-/

/-- Abstract model of the libm routines sinf and cosf that the engine links
against (physics_auth.c includes math.h). -/
structure SinCos where
  sin : ℚ → ℚ
  cos : ℚ → ℚ

/-- PHI_SIZE, physics_auth.h line 11. -/
def PHI_SIZE : ℕ := 100

/-- DT, physics_auth.h line 12. -/
def DT : ℚ := 0.05

/-- EVOLUTION_STEPS, physics_auth.h line 14. -/
def EVOLUTION_STEPS : ℕ := 200

/-- LORENZ_SIGMA, physics_auth.h line 17. -/
def LORENZ_SIGMA : ℚ := 10.0

/-- LORENZ_RHO, physics_auth.h line 18. -/
def LORENZ_RHO : ℚ := 28.0

/-- LORENZ_BETA, physics_auth.h line 19: the literal is 2.666667, not 2.667. -/
def LORENZ_BETA : ℚ := 2.666667

/-- U_E, physics_auth.c line 18. -/
def U_E : ℚ := 86.4

/-- I_CHAR, physics_auth.c line 19. -/
def I_CHAR : ℚ := 8.0

/-- R_CHAR, physics_auth.c line 20. -/
def R_CHAR : ℚ := 8.0

/-- ALPHA_PSI, physics_auth.c line 21. -/
def ALPHA_PSI : ℚ := 3.0

/-- BETA_PSI, physics_auth.c line 22. -/
def BETA_PSI : ℚ := 0.5

/-- The xorshift32 PRNG, physics_auth.c lines 41 to 48.  The 32-bit unsigned
arithmetic is modelled on ℕ with explicit reduction modulo 2 ^ 32 after each
left shift; a right shift and an xor of two values below 2 ^ 32 never leave
the 32-bit range, matching the C uint32_t semantics. -/
def xorshift32 (state : ℕ) : ℕ :=
  let x := state
  let x := (x ^^^ (x <<< 13)) % 2 ^ 32
  let x := x ^^^ (x >>> 17)
  let x := (x ^^^ (x <<< 5)) % 2 ^ 32
  x

/-- The bounded tanh approximation fast_tanh, physics_auth.c lines 51 to 56. -/
def fast_tanh (x : ℚ) : ℚ :=
  if x < -3.0 then -1.0
  else if x > 3.0 then 1.0
  else
    let x2 := x * x
    x * (27.0 + x2) / (27.0 + 9.0 * x2)

/-- The nonlinear mixing function mix_nonlinear, physics_auth.c lines 59 to 63.
Note that the cosine argument is b * 2.71828 (line 60). -/
def mix_nonlinear (ops : SinCos) (a b c : ℚ) : ℚ :=
  let x := ops.sin (a * 3.14159) * ops.cos (b * 2.71828)
  let y := fast_tanh (c * x)
  x * y + ops.sin (a * b + c)

/-- Truncation toward zero, as used by the C library function fmodf. -/
def ratTrunc (q : ℚ) : ℤ :=
  if 0 ≤ q then ⌊q⌋ else ⌈q⌉

/-- The C library function fmodf: the sign-preserving floating-point
remainder x - y * trunc (x / y). -/
def fmodQ (x y : ℚ) : ℚ :=
  x - y * ratTrunc (x / y)

/-- The AgentState record, physics_auth.c lines 25 to 34.  The fixed-size
array Phi of length PHI_SIZE is modelled as a list (its length is an
invariant, proved below). -/
structure AgentState where
  I : ℚ
  R : ℚ
  Psi : ℚ
  Phi : List ℚ
  Lx : ℚ
  Ly : ℚ
  Lz : ℚ
  entropy : ℚ

/-- The AuthSecret record, physics_auth.h lines 22 to 26.  The uint32_t seed
is modelled as a natural number. -/
structure AuthSecret where
  k : ℚ
  gamma : ℚ
  seed : ℕ

/-- The AuthResponse record, physics_auth.h lines 29 to 39. -/
structure AuthResponse where
  psi : ℚ
  i_val : ℚ
  r_val : ℚ
  phi_avg : ℚ
  lorenz_x : ℚ
  lorenz_y : ℚ
  lorenz_z : ℚ
  entropy_hash : ℚ

/-- The Phi-filling loop of init_agent_state, physics_auth.c lines 74 to 76:
each iteration advances the PRNG state once and stores the masked draw,
normalized into the range from 0 to 0.1; the pair returns the built list
together with the PRNG state after the n draws. -/
def initPhiAux : ℕ → ℕ → List ℚ × ℕ
  | 0, r => ([], r)
  | n + 1, r =>
    let x := xorshift32 r
    let rest := initPhiAux n x
    ((((x &&& 0xFFFF : ℕ) : ℚ) / 65535.0 * 0.1) :: rest.1, rest.2)

/-- init_agent_state, physics_auth.c lines 66 to 85: the PRNG is seeded with
the secret seed, I, R and Psi start at 0.1, Phi takes PHI_SIZE draws, and the
three Lorenz variables take the next three draws. -/
def init_agent_state (seed : ℕ) : AgentState :=
  let rng_state := seed
  let p := initPhiAux PHI_SIZE rng_state
  let r1 := xorshift32 p.2
  let r2 := xorshift32 r1
  let r3 := xorshift32 r2
  { I := 0.1
    R := 0.1
    Psi := 0.1
    Phi := p.1
    Lx := 1.0 + ((r1 &&& 0xFFFF : ℕ) : ℚ) / 65535.0 * 0.01
    Ly := 1.0 + ((r2 &&& 0xFFFF : ℕ) : ℚ) / 65535.0 * 0.01
    Lz := 1.0 + ((r3 &&& 0xFFFF : ℕ) : ℚ) / 65535.0 * 0.01
    entropy := 0.0 }

/-- The per-step seed noise, physics_auth.c line 129: the PRNG advances once
and the masked draw is normalized into the range from 0 to 0.1; the caller
keeps xorshift32 of the incoming state as the new PRNG state. -/
def step_seed_noise (seed_state : ℕ) : ℚ :=
  ((xorshift32 seed_state &&& 0xFFFF : ℕ) : ℚ) / 65535.0 * 0.1

/-- evolve_step, physics_auth.c lines 88 to 165, in the exact source order:
Lorenz update with wrap, logistic-map chaos injection, seed noise draw,
primary dynamics with wrap, Phi field evolution with wrap, and entropy
accumulation.  The result pairs the new state with the new PRNG state (the
C version mutates both through pointers); the step argument is taken but
never read, exactly as in the source. -/
def evolve_step (ops : SinCos) (agent : AgentState) (k gamma phi_input : ℚ)
    (seed_state : ℕ) (step : ℕ) : AgentState × ℕ :=
  let dt : ℚ := 0.02
  let dLx := LORENZ_SIGMA * (agent.Ly - agent.Lx)
  let dLy := agent.Lx * (LORENZ_RHO - agent.Lz) - agent.Ly
  let dLz := agent.Lx * agent.Ly - LORENZ_BETA * agent.Lz
  let dLx := dLx + phi_input * 2.0
  let Lx := agent.Lx + dLx * dt
  let Ly := agent.Ly + dLy * dt
  let Lz := agent.Lz + dLz * dt
  let Lx := if |Lx| > 20.0 then fmodQ Lx 20.0 else Lx
  let Ly := if |Ly| > 20.0 then fmodQ Ly 20.0 else Ly
  let Lz := if |Lz| > 20.0 then fmodQ Lz 20.0 else Lz
  let x := 0.5 + 0.5 * fast_tanh agent.Psi
  let r := 3.9 + 0.09 * fast_tanh (Lx * 0.1)
  let x := r * x * (1.0 - x)
  let x := r * x * (1.0 - x)
  let x := r * x * (1.0 - x)
  let chaos_kick := (x - 0.5) * 2.0
  let new_seed := xorshift32 seed_state
  let seed_noise := step_seed_noise seed_state
  let phi_avg := agent.Phi.sum / (PHI_SIZE : ℚ)
  let dI := k * phi_avg + chaos_kick * 0.5 - U_E / I_CHAR * agent.I * 0.5
  let dR := 0.1 * agent.I * agent.Psi - 2.0 * U_E / R_CHAR * agent.R * 0.3
  let dPsi := ALPHA_PSI * agent.I - BETA_PSI * agent.R - gamma * agent.Psi
  let I := agent.I + dI * DT + seed_noise
  let R := agent.R + dR * DT
  let Psi := agent.Psi + dPsi * DT
  let I := if |I| > 5.0 then fmodQ (I * 1.5) 5.0 else I
  let Psi := if |Psi| > 5.0 then fmodQ (Psi * 1.5) 5.0 else Psi
  let Phi := agent.Phi.enum.map (fun ip =>
    let position_factor := ops.sin ((ip.1 : ℚ) * 0.5 + Lx)
    let source := fast_tanh (Psi * 0.5 - ip.2)
    let p := ip.2 + (source * 0.2 + phi_input * 0.1 * position_factor) * DT
    if |p| > 3.0 then fmodQ p 3.0 else p)
  let entropy := agent.entropy + mix_nonlinear ops Psi Lx phi_input
  let entropy := fmodQ entropy 1000.0
  ({ I := I, R := R, Psi := Psi, Phi := Phi, Lx := Lx, Ly := Ly, Lz := Lz,
     entropy := entropy }, new_seed)

/-- steps_per_challenge, physics_auth.c lines 176 to 177.  The C expression
EVOLUTION_STEPS / length is undefined for length 0; the model uses the total
natural division, under which length 0 yields 0 and the guard silently makes
the value 1. -/
def stepsPerChallenge (length : ℕ) : ℕ :=
  let steps := EVOLUTION_STEPS / length
  if steps < 1 then 1 else steps

/-- One iteration of the inner loop of auth_compute_response, physics_auth.c
lines 181 to 186, acting on the triple of agent state, PRNG state and the
running total_step counter. -/
def stepOnce (ops : SinCos) (k gamma c_t : ℚ)
    (t : AgentState × ℕ × ℕ) : AgentState × ℕ × ℕ :=
  let modified_challenge := c_t * (1.0 + 0.01 * ops.sin ((t.2.2 : ℚ) * 0.1))
  let res := evolve_step ops t.1 k gamma modified_challenge t.2.1 t.2.2
  (res.1, res.2, t.2.2 + 1)

/-- The two nested loops of auth_compute_response, physics_auth.c lines
180 to 187: for each challenge value the inner loop body runs
steps_per_challenge times. -/
def runChallenge (ops : SinCos) (k gamma : ℚ) (spc : ℕ) (challenge : List ℚ)
    (st : AgentState × ℕ × ℕ) : AgentState × ℕ × ℕ :=
  challenge.foldl (fun acc c_t => (stepOnce ops k gamma c_t)^[spc] acc) st

/-- auth_compute_response, physics_auth.c lines 168 to 213: a fresh PRNG
copy of the secret seed, state initialization, the evolution loops, and the
8-channel response synthesis. -/
def auth_compute_response (ops : SinCos) (challenge : List ℚ)
    (secret : AuthSecret) : AuthResponse :=
  let seed_state := secret.seed
  let agent0 := init_agent_state secret.seed
  let spc := stepsPerChallenge challenge.length
  let final := runChallenge ops secret.k secret.gamma spc challenge
    (agent0, seed_state, 0)
  let agent := final.1
  let phi_avg := agent.Phi.sum / (PHI_SIZE : ℚ)
  let entropy_hash := mix_nonlinear ops agent.Psi agent.I agent.R
  let entropy_hash := entropy_hash + mix_nonlinear ops agent.Lx agent.Ly agent.Lz
  let entropy_hash := entropy_hash + mix_nonlinear ops phi_avg agent.entropy secret.k
  let entropy_hash := fast_tanh entropy_hash
  { psi := agent.Psi
    i_val := agent.I
    r_val := agent.R
    phi_avg := phi_avg
    lorenz_x := agent.Lx
    lorenz_y := agent.Ly
    lorenz_z := agent.Lz
    entropy_hash := entropy_hash + agent.entropy * 0.001 }

/-- The final value of the total_step counter of auth_compute_response,
physics_auth.c lines 179 to 186; the counter is incremented exactly once per
evolve_step call, so it counts the Step Evolution calls of one computation. -/
def totalEvolveCalls (ops : SinCos) (challenge : List ℚ)
    (secret : AuthSecret) : ℕ :=
  (runChallenge ops secret.k secret.gamma (stepsPerChallenge challenge.length)
    challenge (init_agent_state secret.seed, secret.seed, 0)).2.2

/-- auth_verify, physics_auth.c lines 216 to 225: the conjunction of the
eight strict tolerance comparisons, with the C int result modelled as Bool. -/
def auth_verify (received expected : AuthResponse) (tolerance : ℚ) : Bool :=
  decide (|received.psi - expected.psi| < tolerance) &&
  decide (|received.i_val - expected.i_val| < tolerance) &&
  decide (|received.r_val - expected.r_val| < tolerance) &&
  decide (|received.phi_avg - expected.phi_avg| < tolerance) &&
  decide (|received.lorenz_x - expected.lorenz_x| < tolerance) &&
  decide (|received.lorenz_y - expected.lorenz_y| < tolerance) &&
  decide (|received.lorenz_z - expected.lorenz_z| < tolerance) &&
  decide (|received.entropy_hash - expected.entropy_hash| < tolerance)

lemma abs_fmodQ_lt (x : ℚ) {y : ℚ} (hy : 0 < y) : |fmodQ x y| < y := by
  have hy0 : y ≠ 0 := ne_of_gt hy
  have hxy : x / y * y = x := div_mul_cancel₀ x hy0
  unfold fmodQ ratTrunc
  rw [abs_lt]
  by_cases h : 0 ≤ x / y
  · rw [if_pos h]
    have h0 : (⌊x / y⌋ : ℚ) ≤ x / y := Int.floor_le _
    have h1 : x / y < ⌊x / y⌋ + 1 := Int.lt_floor_add_one _
    constructor <;> nlinarith
  · rw [if_neg h]
    have h0 : x / y ≤ (⌈x / y⌉ : ℚ) := Int.le_ceil _
    have h1 : (⌈x / y⌉ : ℚ) < x / y + 1 := Int.ceil_lt_add_one _
    constructor <;> nlinarith

lemma abs_wrap_le (v c : ℚ) (hc : 0 < c) :
    |if |v| > c then fmodQ v c else v| ≤ c := by
  by_cases h : |v| > c
  · rw [if_pos h]
    exact le_of_lt (abs_fmodQ_lt v hc)
  · rw [if_neg h]
    exact le_of_not_lt h

lemma abs_wrapMul_le (v m c : ℚ) (hc : 0 < c) :
    |if |v| > c then fmodQ (v * m) c else v| ≤ c := by
  by_cases h : |v| > c
  · rw [if_pos h]
    exact le_of_lt (abs_fmodQ_lt (v * m) hc)
  · rw [if_neg h]
    exact le_of_not_lt h

/-- The documented wrap bounds of the AgentState: the Phi field has its fixed
size PHI_SIZE, I and Psi stay within 5, every Phi entry stays within 3, and
the three Lorenz variables stay within 20. -/
def InBounds (st : AgentState) : Prop :=
  st.Phi.length = PHI_SIZE ∧ |st.I| ≤ 5.0 ∧ |st.Psi| ≤ 5.0 ∧
  (∀ p ∈ st.Phi, |p| ≤ 3.0) ∧ |st.Lx| ≤ 20.0 ∧ |st.Ly| ≤ 20.0 ∧ |st.Lz| ≤ 20.0

lemma norm16_nonneg (x : ℕ) : 0 ≤ ((x &&& 0xFFFF : ℕ) : ℚ) / 65535.0 :=
  div_nonneg (Nat.cast_nonneg _) (by norm_num)

lemma norm16_le_one (x : ℕ) : ((x &&& 0xFFFF : ℕ) : ℚ) / 65535.0 ≤ 1 := by
  rw [div_le_one (by norm_num)]
  have h : (x &&& 0xFFFF) ≤ 0xFFFF := Nat.and_le_right
  calc ((x &&& 0xFFFF : ℕ) : ℚ) ≤ ((0xFFFF : ℕ) : ℚ) := by exact_mod_cast h
    _ ≤ 65535.0 := by norm_num

lemma initPhiAux_length : ∀ (n r : ℕ), (initPhiAux n r).1.length = n := by
  intro n
  induction n with
  | zero => intro r; rfl
  | succ m ih => intro r; simp [initPhiAux, ih]

lemma initPhiAux_mem_bound :
    ∀ (n r : ℕ), ∀ p ∈ (initPhiAux n r).1, 0 ≤ p ∧ p ≤ 0.1 := by
  intro n
  induction n with
  | zero =>
    intro r p hp
    simp [initPhiAux] at hp
  | succ m ih =>
    intro r p hp
    simp only [initPhiAux, List.mem_cons] at hp
    rcases hp with rfl | hp
    · refine ⟨mul_nonneg (norm16_nonneg _) (by norm_num), ?_⟩
      have h1 := norm16_le_one (xorshift32 r)
      nlinarith
    · exact ih _ p hp

lemma lorenzInit_bound (x : ℕ) :
    |1.0 + ((x &&& 0xFFFF : ℕ) : ℚ) / 65535.0 * 0.01| ≤ 20.0 := by
  have h0 := norm16_nonneg x
  have h1 := norm16_le_one x
  rw [abs_le]
  constructor <;> nlinarith

lemma init_agent_state_inBounds (seed : ℕ) :
    InBounds (init_agent_state seed) := by
  unfold init_agent_state InBounds
  dsimp only
  refine ⟨initPhiAux_length _ _, by rw [abs_le]; norm_num,
    by rw [abs_le]; norm_num, ?_,
    lorenzInit_bound _, lorenzInit_bound _, lorenzInit_bound _⟩
  intro p hp
  obtain ⟨h0, h1⟩ := initPhiAux_mem_bound _ _ p hp
  rw [abs_le]
  constructor <;> nlinarith

lemma evolve_step_inBounds (ops : SinCos) (st : AgentState)
    (k gamma phi_input : ℚ) (r n : ℕ) (h : InBounds st) :
    InBounds (evolve_step ops st k gamma phi_input r n).1 := by
  have hlen := h.1
  unfold evolve_step InBounds
  dsimp only
  refine ⟨?_, abs_wrapMul_le _ _ _ (by norm_num),
    abs_wrapMul_le _ _ _ (by norm_num), ?_,
    abs_wrap_le _ _ (by norm_num), abs_wrap_le _ _ (by norm_num),
    abs_wrap_le _ _ (by norm_num)⟩
  · rw [List.length_map, List.enum_length]
    exact hlen
  · intro p hp
    rw [List.mem_map] at hp
    obtain ⟨ip, -, rfl⟩ := hp
    exact abs_wrap_le _ _ (by norm_num)

lemma stepOnce_fst_inBounds (ops : SinCos) (k gamma c_t : ℚ)
    (t : AgentState × ℕ × ℕ) (h : InBounds t.1) :
    InBounds (stepOnce ops k gamma c_t t).1 :=
  evolve_step_inBounds ops t.1 k gamma _ t.2.1 t.2.2 h

lemma iterate_stepOnce_inBounds (ops : SinCos) (k gamma c_t : ℚ) (m : ℕ) :
    ∀ t : AgentState × ℕ × ℕ, InBounds t.1 →
      InBounds ((stepOnce ops k gamma c_t)^[m] t).1 := by
  induction m with
  | zero => intro t h; exact h
  | succ p ih =>
    intro t h
    rw [Function.iterate_succ_apply]
    exact ih _ (stepOnce_fst_inBounds _ _ _ _ _ h)

lemma runChallenge_inBounds (ops : SinCos) (k gamma : ℚ) (spc : ℕ) :
    ∀ (challenge : List ℚ) (t : AgentState × ℕ × ℕ), InBounds t.1 →
      InBounds (runChallenge ops k gamma spc challenge t).1 := by
  intro challenge
  induction challenge with
  | nil => intro t h; exact h
  | cons c cs ih =>
    intro t h
    rw [runChallenge, List.foldl_cons]
    exact ih _ (iterate_stepOnce_inBounds _ _ _ _ _ _ h)

lemma stepOnce_rng (ops : SinCos) (k gamma c_t : ℚ)
    (t : AgentState × ℕ × ℕ) :
    (stepOnce ops k gamma c_t t).2.1 = xorshift32 t.2.1 := rfl

lemma stepOnce_total (ops : SinCos) (k gamma c_t : ℚ)
    (t : AgentState × ℕ × ℕ) :
    (stepOnce ops k gamma c_t t).2.2 = t.2.2 + 1 := rfl

lemma iterate_stepOnce_rng (ops : SinCos) (k gamma c_t : ℚ) (m : ℕ) :
    ∀ t : AgentState × ℕ × ℕ,
      ((stepOnce ops k gamma c_t)^[m] t).2.1 = xorshift32^[m] t.2.1 := by
  induction m with
  | zero => intro t; rfl
  | succ p ih =>
    intro t
    rw [Function.iterate_succ_apply, ih, stepOnce_rng,
      ← Function.iterate_succ_apply]

lemma iterate_stepOnce_total (ops : SinCos) (k gamma c_t : ℚ) (m : ℕ) :
    ∀ t : AgentState × ℕ × ℕ,
      ((stepOnce ops k gamma c_t)^[m] t).2.2 = t.2.2 + m := by
  induction m with
  | zero => intro t; rfl
  | succ p ih =>
    intro t
    rw [Function.iterate_succ_apply, ih, stepOnce_total]
    omega

lemma runChallenge_rng (ops : SinCos) (k gamma : ℚ) (spc : ℕ) :
    ∀ (challenge : List ℚ) (t : AgentState × ℕ × ℕ),
      (runChallenge ops k gamma spc challenge t).2.1 =
        xorshift32^[challenge.length * spc] t.2.1 := by
  intro challenge
  induction challenge with
  | nil => intro t; simp [runChallenge]
  | cons c cs ih =>
    intro t
    rw [runChallenge, List.foldl_cons]
    have h := ih ((stepOnce ops k gamma c)^[spc] t)
    rw [runChallenge] at h
    rw [h, iterate_stepOnce_rng, ← Function.iterate_add_apply,
      List.length_cons]
    congr 1
    ring

lemma runChallenge_total (ops : SinCos) (k gamma : ℚ) (spc : ℕ) :
    ∀ (challenge : List ℚ) (t : AgentState × ℕ × ℕ),
      (runChallenge ops k gamma spc challenge t).2.2 =
        t.2.2 + challenge.length * spc := by
  intro challenge
  induction challenge with
  | nil => intro t; simp [runChallenge]
  | cons c cs ih =>
    intro t
    rw [runChallenge, List.foldl_cons]
    have h := ih ((stepOnce ops k gamma c)^[spc] t)
    rw [runChallenge] at h
    rw [h, iterate_stepOnce_total, List.length_cons]
    ring

lemma initPhiAux_getD :
    ∀ (n i r : ℕ), i < n →
      (initPhiAux n r).1.getD i 0 =
        ((xorshift32^[i + 1] r &&& 0xFFFF : ℕ) : ℚ) / 65535.0 * 0.1 := by
  intro n
  induction n with
  | zero => intro i r h; omega
  | succ m ih =>
    intro i r h
    cases i with
    | zero =>
      simp [initPhiAux, Function.iterate_one]
    | succ j =>
      have hj : j < m := by omega
      simp only [initPhiAux]
      rw [List.getD_cons_succ, ih j (xorshift32 r) hj]
      conv_rhs => rw [Function.iterate_succ_apply]

lemma auth_verify_nonpos (r e : AuthResponse) (t : ℚ) (h : t ≤ 0) :
    auth_verify r e t = false := by
  have h1 : ¬ (|r.psi - e.psi| < t) :=
    fun hlt => absurd (hlt.trans_le h) (abs_nonneg _).not_lt
  simp [auth_verify, h1]

/-- Identity instantiation of the abstract sinf and cosf pair, used for
concrete counterexample evaluation. -/
def idOps : SinCos :=
  { sin := fun q => q, cos := fun q => q }

/-- Constant-zero instantiation of the abstract sinf and cosf pair, used for
concrete test vectors. -/
def opsZ : SinCos :=
  { sin := fun _ => 0, cos := fun _ => 0 }

/-- An all-zero response record, used as a concrete test vector. -/
def zeroResponse : AuthResponse :=
  ⟨0, 0, 0, 0, 0, 0, 0, 0⟩

/-- An all-one response record, used as a concrete test vector. -/
def oneResponse : AuthResponse :=
  ⟨1, 1, 1, 1, 1, 1, 1, 1⟩

/-- The concrete secret of the reference scenario of the spec. -/
def secret0 : AuthSecret :=
  { k := 2.5, gamma := 0.8, seed := 12345 }

/-- An in-bounds all-zero agent state, used as a concrete test vector. -/
def zState : AgentState :=
  { I := 0, R := 0, Psi := 0, Phi := List.replicate 100 0,
    Lx := 0, Ly := 0, Lz := 0, entropy := 0 }

/-- A small agent state with an empty Phi field and Lz = 1, used only to
evaluate the Lorenz sub-step on a concrete input. -/
def stC6 : AgentState :=
  { I := 0, R := 0, Psi := 0, Phi := [],
    Lx := 0, Ly := 0, Lz := 1, entropy := 0 }

/-- The mixing formula exactly as claim C5 words it, with the cosine argument
being 2.71828 times a; defined only to be compared with mix_nonlinear, which
is the source formula. -/
def mix_claim (ops : SinCos) (a b c : ℚ) : ℚ :=
  ops.sin (a * 3.14159) * ops.cos (a * 2.71828) *
    fast_tanh (c * (ops.sin (a * 3.14159) * ops.cos (a * 2.71828))) +
  ops.sin (a * b + c)

/-- The Lorenz sub-step exactly as claim C6 words it, with beta equal to
2.667; defined only to be compared with the Lorenz part of evolve_step. -/
def lorenzClaimStep (st : AgentState) (phi_input : ℚ) : ℚ × ℚ × ℚ :=
  let dLx := 10.0 * (st.Ly - st.Lx) + phi_input * 2.0
  let dLy := st.Lx * (28.0 - st.Lz) - st.Ly
  let dLz := st.Lx * st.Ly - 2.667 * st.Lz
  let Lx := st.Lx + dLx * 0.02
  let Ly := st.Ly + dLy * 0.02
  let Lz := st.Lz + dLz * 0.02
  (if |Lx| > 20.0 then fmodQ Lx 20.0 else Lx,
   if |Ly| > 20.0 then fmodQ Ly 20.0 else Ly,
   if |Lz| > 20.0 then fmodQ Lz 20.0 else Lz)

/-- The Lorenz sub-step as the amended claim C6 words it, with beta equal to
the source literal 2.666667 (physics_auth.h line 19); a second definition
written from the amended specification wording, to be compared with the
Lorenz part of evolve_step. -/
def lorenzSpecStep (st : AgentState) (phi_input : ℚ) : ℚ × ℚ × ℚ :=
  let dLx := 10.0 * (st.Ly - st.Lx) + phi_input * 2.0
  let dLy := st.Lx * (28.0 - st.Lz) - st.Ly
  let dLz := st.Lx * st.Ly - 2.666667 * st.Lz
  let Lx := st.Lx + dLx * 0.02
  let Ly := st.Ly + dLy * 0.02
  let Lz := st.Lz + dLz * 0.02
  (if |Lx| > 20.0 then fmodQ Lx 20.0 else Lx,
   if |Ly| > 20.0 then fmodQ Ly 20.0 else Ly,
   if |Lz| > 20.0 then fmodQ Lz 20.0 else Lz)

/-- Claim C1 (code bug in the source): auth_compute_response performs no
emptiness check at all.  For a length-0 challenge the C code divides
EVOLUTION_STEPS by zero (undefined behavior), and only after the agent state
has already been initialized; under the total natural division of the model
the guard of lines 176 to 177 silently turns the division result into
steps_per_challenge = 1, no evolution step runs, and the response of the
freshly initialized, unevolved agent state (whose Psi, I and R are all 0.1)
is returned instead of an InvalidChallenge failure. -/
theorem empty_challenge_not_rejected :
    stepsPerChallenge 0 = 1 ∧
    ∀ (ops : SinCos) (s : AuthSecret),
      (auth_compute_response ops [] s).psi = 0.1 ∧
      (auth_compute_response ops [] s).i_val = 0.1 ∧
      (auth_compute_response ops [] s).r_val = 0.1 :=
  ⟨by decide, fun ops s => ⟨rfl, rfl, rfl⟩⟩

/-- Claim C2: for a positive tolerance, auth_verify returns true exactly when
every one of the 8 response fields differs from its expected value by
strictly less than the tolerance; a single field at distance at least the
tolerance forces false, with no weighting or partial credit. -/
theorem verify_iff_all_fields_within_tolerance (r e : AuthResponse) (t : ℚ)
    (h : 0 < t) :
    auth_verify r e t = true ↔
      (|r.psi - e.psi| < t ∧ |r.i_val - e.i_val| < t ∧
       |r.r_val - e.r_val| < t ∧ |r.phi_avg - e.phi_avg| < t ∧
       |r.lorenz_x - e.lorenz_x| < t ∧ |r.lorenz_y - e.lorenz_y| < t ∧
       |r.lorenz_z - e.lorenz_z| < t ∧ |r.entropy_hash - e.entropy_hash| < t) := by
  simp [auth_verify, and_assoc]

/-- Witness for claim C2 at the concrete input (zeroResponse, zeroResponse, 1). -/
theorem verify_iff_all_fields_within_tolerance_witness :
    (0 : ℚ) < 1 ∧
      (auth_verify zeroResponse zeroResponse 1 = true ↔
        (|zeroResponse.psi - zeroResponse.psi| < 1 ∧
         |zeroResponse.i_val - zeroResponse.i_val| < 1 ∧
         |zeroResponse.r_val - zeroResponse.r_val| < 1 ∧
         |zeroResponse.phi_avg - zeroResponse.phi_avg| < 1 ∧
         |zeroResponse.lorenz_x - zeroResponse.lorenz_x| < 1 ∧
         |zeroResponse.lorenz_y - zeroResponse.lorenz_y| < 1 ∧
         |zeroResponse.lorenz_z - zeroResponse.lorenz_z| < 1 ∧
         |zeroResponse.entropy_hash - zeroResponse.entropy_hash| < 1)) :=
  ⟨one_pos,
   verify_iff_all_fields_within_tolerance zeroResponse zeroResponse 1 one_pos⟩

/-- Claim C3: the state produced by init_agent_state satisfies the wrap
bounds for every seed; one evolve_step call on any in-bounds state yields an
in-bounds state; and hence the state reached by the evolution loops from any
initialized state is in bounds after any number of steps. -/
theorem agent_state_bounds_invariant :
    (∀ seed : ℕ, InBounds (init_agent_state seed)) ∧
    (∀ (ops : SinCos) (st : AgentState) (k gamma phi_input : ℚ) (r n : ℕ),
      InBounds st → InBounds (evolve_step ops st k gamma phi_input r n).1) ∧
    (∀ (ops : SinCos) (k gamma : ℚ) (spc : ℕ) (challenge : List ℚ)
      (seed : ℕ),
      InBounds (runChallenge ops k gamma spc challenge
        (init_agent_state seed, seed, 0)).1) :=
  ⟨init_agent_state_inBounds,
   fun ops st k gamma phi_input r n h =>
     evolve_step_inBounds ops st k gamma phi_input r n h,
   fun ops k gamma spc challenge seed =>
     runChallenge_inBounds ops k gamma spc challenge _
       (init_agent_state_inBounds seed)⟩

/-- Witness for claim C3 at the concrete in-bounds state zState. -/
theorem agent_state_bounds_invariant_witness :
    InBounds zState ∧ InBounds (evolve_step opsZ zState 1 1 1 0 0).1 :=
  ⟨by norm_num [InBounds, zState, PHI_SIZE, List.mem_replicate],
   agent_state_bounds_invariant.2.1 opsZ zState 1 1 1 0 0
     (by norm_num [InBounds, zState, PHI_SIZE, List.mem_replicate])⟩

/-- Claim C4 counterexample: at tolerance 0 (which is not positive)
auth_verify does not fail with a distinct InvalidTolerance error condition:
it simply returns the boolean false, even on identical responses. -/
theorem verify_nonpos_tolerance_counterexample :
    auth_verify oneResponse oneResponse 0 = false := by
  simp [auth_verify, oneResponse]

/-- Claim C4 as amended: auth_verify has no error path at all (its C result
type is a plain int used as a boolean); for every tolerance at most 0 it
returns the boolean false for every pair of responses, because no absolute
difference can be strictly below a non-positive tolerance. -/
theorem verify_nonpos_tolerance_returns_false (r e : AuthResponse) (t : ℚ)
    (h : t ≤ 0) : auth_verify r e t = false :=
  auth_verify_nonpos r e t h

/-- Witness for the amended claim C4 at the concrete input
(zeroResponse, zeroResponse, 0). -/
theorem verify_nonpos_tolerance_returns_false_witness :
    (0 : ℚ) ≤ 0 ∧ auth_verify zeroResponse zeroResponse 0 = false :=
  ⟨le_refl 0,
   verify_nonpos_tolerance_returns_false zeroResponse zeroResponse 0 (le_refl 0)⟩

/-- Claim C5 counterexample: the cosine argument of mix_nonlinear is
b * 2.71828 (physics_auth.c line 60), not a * 2.71828 as the claim states;
at (a, b, c) = (1, 2, 1), with the abstract sinf and cosf instantiated by the
identity, the source formula and the claimed formula give different values. -/
theorem mix_cosine_argument_counterexample :
    mix_nonlinear idOps 1 2 1 ≠ mix_claim idOps 1 2 1 := by
  norm_num [mix_nonlinear, mix_claim, idOps, fast_tanh]

/-- Claim C5 as amended: the mixing function satisfies
mix(a,b,c) = sin(3.14159 a) cos(2.71828 b) tanh_approx(c sin(3.14159 a)
cos(2.71828 b)) + sin(ab + c), the cosine argument being 2.71828 times b;
and each evolve_step adds mix(Psi, Lx, phi_input) (at the updated Psi and Lx)
to the entropy accumulator and then reduces entropy modulo 1000. -/
theorem mix_formula_and_entropy_accumulation :
    (∀ (ops : SinCos) (a b c : ℚ),
      mix_nonlinear ops a b c =
        ops.sin (a * 3.14159) * ops.cos (b * 2.71828) *
          fast_tanh (c * (ops.sin (a * 3.14159) * ops.cos (b * 2.71828))) +
        ops.sin (a * b + c)) ∧
    (∀ (ops : SinCos) (st : AgentState) (k gamma phi_input : ℚ) (r n : ℕ),
      (evolve_step ops st k gamma phi_input r n).1.entropy =
        fmodQ (st.entropy +
          mix_nonlinear ops (evolve_step ops st k gamma phi_input r n).1.Psi
            (evolve_step ops st k gamma phi_input r n).1.Lx phi_input)
          1000.0) :=
  ⟨fun ops a b c => rfl, fun ops st k gamma phi_input r n => rfl⟩

/-- Claim C6 counterexample: the Lorenz beta coefficient of the source is the
literal 2.666667 (physics_auth.h line 19), not 2.667 as the claim states; on
a concrete state with Lz = 1 the Lorenz sub-step of evolve_step disagrees
with the claimed formula. -/
theorem lorenz_beta_counterexample :
    (evolve_step opsZ stC6 0 0 0 0 0).1.Lz ≠ (lorenzClaimStep stC6 0).2.2 := by
  norm_num [evolve_step, lorenzClaimStep, stC6, opsZ, LORENZ_SIGMA,
    LORENZ_RHO, LORENZ_BETA, fmodQ, ratTrunc, fast_tanh, mix_nonlinear,
    step_seed_noise, xorshift32, PHI_SIZE, DT, U_E, I_CHAR, R_CHAR,
    ALPHA_PSI, BETA_PSI]

/-- Claim C6 as amended: the Lorenz sub-step of evolve_step computes
dLx = 10.0 (Ly - Lx) + phi_input 2.0, dLy = Lx (28.0 - Lz) - Ly,
dLz = Lx Ly - 2.666667 Lz (beta equal to the source literal 2.666667), adds
each derivative times the micro-step dt = 0.02 to the corresponding
variable, and then wraps each of Lx, Ly, Lz independently by the
sign-preserving remainder modulo 20 whenever its absolute value exceeds 20. -/
theorem lorenz_substep_amended (ops : SinCos) (st : AgentState)
    (k gamma phi_input : ℚ) (r n : ℕ) :
    (evolve_step ops st k gamma phi_input r n).1.Lx =
      (lorenzSpecStep st phi_input).1 ∧
    (evolve_step ops st k gamma phi_input r n).1.Ly =
      (lorenzSpecStep st phi_input).2.1 ∧
    (evolve_step ops st k gamma phi_input r n).1.Lz =
      (lorenzSpecStep st phi_input).2.2 :=
  ⟨rfl, rfl, rfl⟩

lemma totalEvolveCalls_eq (ops : SinCos) (challenge : List ℚ)
    (secret : AuthSecret) :
    totalEvolveCalls ops challenge secret =
      challenge.length * stepsPerChallenge challenge.length := by
  unfold totalEvolveCalls
  rw [runChallenge_total]
  exact Nat.zero_add _

/-- Claim C7 counterexample: a 7-element challenge makes auth_compute_response
perform 7 * (200 / 7) = 196 Step Evolution calls, not 200: the total does
depend on the challenge length. -/
theorem total_evolve_calls_counterexample :
    totalEvolveCalls opsZ (List.replicate 7 0) secret0 ≠ 200 := by
  rw [totalEvolveCalls_eq]
  decide

/-- Claim C7 as amended: the number of Step Evolution calls performed by
auth_compute_response equals length * max(1, 200 / length): it never depends
on the challenge element values (nor on the secret or the trigonometric
environment), but it does depend on the length; it equals 200 exactly for
the lengths at which length * max(1, 200 / length) is 200, such as the
reference length 50. -/
theorem total_evolve_calls_amended (ops : SinCos) (challenge : List ℚ)
    (secret : AuthSecret) :
    totalEvolveCalls ops challenge secret =
      challenge.length * stepsPerChallenge challenge.length ∧
    ∀ (ops2 : SinCos) (challenge2 : List ℚ) (secret2 : AuthSecret),
      challenge2.length = challenge.length →
      totalEvolveCalls ops2 challenge2 secret2 =
        totalEvolveCalls ops challenge secret := by
  constructor
  · exact totalEvolveCalls_eq ops challenge secret
  · intro ops2 challenge2 secret2 hlen
    rw [totalEvolveCalls_eq, totalEvolveCalls_eq, hlen]

/-- Witness for the amended claim C7: two challenges of equal length 2 with
different element values, secrets and trigonometric environments trigger the
same number of Step Evolution calls, namely 2 * max(1, 200 / 2). -/
theorem total_evolve_calls_amended_witness :
    totalEvolveCalls opsZ [1, 2] secret0 = 2 * stepsPerChallenge 2 ∧
    totalEvolveCalls idOps [5, 6] secret0 = totalEvolveCalls opsZ [1, 2] secret0 :=
  ⟨(total_evolve_calls_amended opsZ [1, 2] secret0).1,
   (total_evolve_calls_amended opsZ [1, 2] secret0).2 idOps [5, 6] secret0 rfl⟩

/-- Claim C8: auth_compute_response is deterministic: two calls with
identical arguments return identical responses, every one of the 8 output
fields being exactly equal across the two runs (the model threads all of its
state, the PRNG state included, explicitly, so the computation is a pure
function of its arguments). -/
theorem compute_response_deterministic (ops : SinCos) (challenge : List ℚ)
    (secret : AuthSecret) (h : challenge ≠ []) :
    (auth_compute_response ops challenge secret).psi =
      (auth_compute_response ops challenge secret).psi ∧
    (auth_compute_response ops challenge secret).i_val =
      (auth_compute_response ops challenge secret).i_val ∧
    (auth_compute_response ops challenge secret).r_val =
      (auth_compute_response ops challenge secret).r_val ∧
    (auth_compute_response ops challenge secret).phi_avg =
      (auth_compute_response ops challenge secret).phi_avg ∧
    (auth_compute_response ops challenge secret).lorenz_x =
      (auth_compute_response ops challenge secret).lorenz_x ∧
    (auth_compute_response ops challenge secret).lorenz_y =
      (auth_compute_response ops challenge secret).lorenz_y ∧
    (auth_compute_response ops challenge secret).lorenz_z =
      (auth_compute_response ops challenge secret).lorenz_z ∧
    (auth_compute_response ops challenge secret).entropy_hash =
      (auth_compute_response ops challenge secret).entropy_hash :=
  ⟨rfl, rfl, rfl, rfl, rfl, rfl, rfl, rfl⟩

/-- Witness for claim C8 at the concrete nonempty challenge with one element. -/
theorem compute_response_deterministic_witness :
    ([1] : List ℚ) ≠ [] ∧
      ((auth_compute_response opsZ [1] secret0).psi =
        (auth_compute_response opsZ [1] secret0).psi ∧
      (auth_compute_response opsZ [1] secret0).i_val =
        (auth_compute_response opsZ [1] secret0).i_val ∧
      (auth_compute_response opsZ [1] secret0).r_val =
        (auth_compute_response opsZ [1] secret0).r_val ∧
      (auth_compute_response opsZ [1] secret0).phi_avg =
        (auth_compute_response opsZ [1] secret0).phi_avg ∧
      (auth_compute_response opsZ [1] secret0).lorenz_x =
        (auth_compute_response opsZ [1] secret0).lorenz_x ∧
      (auth_compute_response opsZ [1] secret0).lorenz_y =
        (auth_compute_response opsZ [1] secret0).lorenz_y ∧
      (auth_compute_response opsZ [1] secret0).lorenz_z =
        (auth_compute_response opsZ [1] secret0).lorenz_z ∧
      (auth_compute_response opsZ [1] secret0).entropy_hash =
        (auth_compute_response opsZ [1] secret0).entropy_hash) :=
  ⟨List.cons_ne_nil 1 [],
   compute_response_deterministic opsZ [1] secret0 (List.cons_ne_nil 1 [])⟩

/-- Claim C9: inside auth_compute_response the PRNG state used for the
per-step seed noise starts from secret.seed, exactly like the stream that
initialized the agent state; the PRNG state entering global step m of the
evolution loops is the m-th iterate of xorshift32 on the seed (second
conjunct), so the seed noise drawn at global step n is the n plus first draw
of the stream, which for n below PHI_SIZE is precisely the value stored in
Phi[n] at initialization (first conjunct). -/
theorem rng_stream_alignment (seed n : ℕ) (h : n < PHI_SIZE) :
    step_seed_noise (xorshift32^[n] seed) =
      (init_agent_state seed).Phi.getD n 0 ∧
    ∀ (ops : SinCos) (k gamma : ℚ) (spc : ℕ) (challenge : List ℚ)
      (st : AgentState) (r m : ℕ),
      (runChallenge ops k gamma spc challenge (st, r, m)).2.1 =
        xorshift32^[challenge.length * spc] r := by
  constructor
  · unfold init_agent_state
    dsimp only
    rw [initPhiAux_getD PHI_SIZE n seed h]
    unfold step_seed_noise
    conv_rhs => rw [Function.iterate_succ_apply']
  · intro ops k gamma spc challenge st r m
    exact runChallenge_rng ops k gamma spc challenge (st, r, m)

/-- Witness for claim C9 at seed 12345 and step 0: the step-0 seed noise
equals the initial Phi[0]. -/
theorem rng_stream_alignment_witness :
    0 < PHI_SIZE ∧
      (step_seed_noise (xorshift32^[0] 12345) =
        (init_agent_state 12345).Phi.getD 0 0 ∧
      ∀ (ops : SinCos) (k gamma : ℚ) (spc : ℕ) (challenge : List ℚ)
        (st : AgentState) (r m : ℕ),
        (runChallenge ops k gamma spc challenge (st, r, m)).2.1 =
          xorshift32^[challenge.length * spc] r) :=
  ⟨by decide, rng_stream_alignment 12345 0 (by decide)⟩

/-- Claim C10: for every tolerance at most 0, auth_verify returns the
boolean false and signals no error (the model of the C function is total
with a plain boolean result), and it does so even on field-wise identical
responses. -/
theorem verify_nonpos_returns_false_no_error (r e : AuthResponse) (t : ℚ)
    (h : t ≤ 0) :
    auth_verify r e t = false ∧ auth_verify r r t = false :=
  ⟨auth_verify_nonpos r e t h, auth_verify_nonpos r r t h⟩

/-- Witness for claim C10 at the concrete inputs (oneResponse, zeroResponse)
and (oneResponse, oneResponse) with tolerance 0. -/
theorem verify_nonpos_returns_false_no_error_witness :
    (0 : ℚ) ≤ 0 ∧
      (auth_verify oneResponse zeroResponse 0 = false ∧
       auth_verify oneResponse oneResponse 0 = false) :=
  ⟨le_refl 0,
   verify_nonpos_returns_false_no_error oneResponse zeroResponse 0 (le_refl 0)⟩
